import Mathlib

/-!
Verification development for the lofigui helper layer.

This file gives a shallow embedding of the core of the repository:
 - `src/lofigui/context.py` (PrintContext: queue of pending HTML fragments
   plus an accumulated buffer, with `read`, `buffer`, `reset`),
 - `src/lofigui/controller.py` (Controller: action state plus `state_dict`),
 - `src/lofigui/app.py` (App: controller property with safe teardown,
   `state_dict`, `template_response`, `start_action`, `end_action`),
 - `src/lofigui/markdown.py` (`table`: HTML table generation with colspan
   for short rows).

Python dicts over the render-context keys are embedded as functions from
key strings to optional values; dict assignment is `dset` (later wins) and
the `|` union is `dunion` (right operand wins).  Python object identity for
controllers is embedded by giving each controller object a numeric id in a
heap; the `App` stores an optional id, and `is` comparison becomes id
equality.  A Python call that raises an exception that propagates to the
caller is embedded as a function that also returns a `Bool` raise flag;
field mutations performed before the raise persist, as in Python.
-/

namespace Lofigui

/-- `PrintContext` of `src/lofigui/context.py`: an asyncio queue of pending
fragments (embedded as a FIFO list) and the accumulated buffer string.
`max_buffer_size` only triggers a non-fatal warning in the source and never
changes state. -/
structure PrintContext where
  queue : List String
  buffer : String
  max_buffer_size : Option Nat
  deriving DecidableEq

/-- `asyncio.Queue.put_nowait` as used by the formatters: append one
fragment at the tail of the pending queue. -/
def PrintContext.put_nowait (ctx : PrintContext) (s : String) : PrintContext :=
  { ctx with queue := ctx.queue ++ [s] }

/-- `PrintContext.read` (context.py lines 33-64): if the queue is empty do
nothing; otherwise concatenate every pending fragment in FIFO order onto
the buffer and empty the queue.  The oversize warning is a side effect
only. -/
def PrintContext.read (ctx : PrintContext) : PrintContext :=
  if ctx.queue.isEmpty then ctx
  else { ctx with queue := [], buffer := ctx.buffer ++ String.join ctx.queue }

/-- Module-level `buffer(ctx)` (context.py lines 79-100): drain the queue
via `read`, then return the accumulated buffer contents, together with the
post-drain context. -/
def buffer (ctx : PrintContext) : String × PrintContext :=
  let c := ctx.read
  (c.buffer, c)

/-- Module-level `reset(ctx)` (context.py lines 103-120): set the buffer to
the empty string; the pending queue is not touched. -/
def reset (ctx : PrintContext) : PrintContext :=
  { ctx with buffer := "" }

/-- Enqueue a whole list of fragments in order (a sequence of formatter
calls). -/
def enqueueAll (ctx : PrintContext) (fs : List String) : PrintContext :=
  fs.foldl PrintContext.put_nowait ctx

/-- A context with nothing pending and an empty buffer, as built by
`PrintContext()`. -/
def emptyCtx : PrintContext :=
  { queue := [], buffer := "", max_buffer_size := none }

/-- Values stored in a render-context dictionary. -/
inductive Val where
  | vStr : String → Val
  | vNat : Nat → Val
  | vReq : Option String → Val
  deriving DecidableEq

/-- A Python dict over string keys, as a partial map. -/
abbrev Dict := String → Option Val

/-- The empty dict. -/
def dempty : Dict := fun _ => none

/-- Dict item assignment `d[k] = v`: later assignments win. -/
def dset (d : Dict) (k : String) (v : Val) : Dict :=
  fun q => if q = k then some v else d q

/-- Python dict union `d1 | d2`: keys of the right operand win. -/
def dunion (d1 d2 : Dict) : Dict :=
  fun q => match d2 q with
    | some v => some v
    | none => d1 q

/-- The `<meta http-equiv="Refresh" content="t">` directive built by both
`state_dict` implementations. -/
def refreshMeta (t : Nat) : String :=
  "<meta http-equiv=\"Refresh\" content=\"" ++ toString t ++ "\">"

/-- `Controller` of `src/lofigui/controller.py` (constructor lines 41-60).
The class defines no attribute `name` and no `start_subaction` or
`end_subaction` method. -/
structure Controller where
  template_dir : String
  template_name : Option String
  refresh_time : Nat
  poll : Bool
  poll_count : Nat
  action_running : Bool
  deriving DecidableEq

/-- `Controller()` with default arguments. -/
def defaultController : Controller :=
  { template_dir := "templates", template_name := none, refresh_time := 1,
    poll := false, poll_count := 0, action_running := false }

/-- `Controller.start_action` (controller.py lines 62-72). -/
def Controller.start_action (c : Controller) (refresh_time : Option Nat) : Controller :=
  let c := { c with action_running := true, poll := true }
  match refresh_time with
  | some r => { c with refresh_time := r }
  | none => c

/-- `Controller.end_action` (controller.py lines 74-77). -/
def Controller.end_action (c : Controller) : Controller :=
  { c with action_running := false, poll := false }

/-- `Controller.is_action_running` (controller.py lines 79-81). -/
def Controller.is_action_running (c : Controller) : Bool :=
  c.action_running

/-- `Controller.state_dict` (controller.py lines 83-114).  Starts from a
copy of `extra`, then overwrites `request` and `results` (one buffer
drain), then the poll-dependent keys: while polling, `poll_count` holds the
counter value before the post-increment and `refresh` holds the meta
directive; otherwise the counter is reset to 0, `refresh` is set to the
empty string and no `poll_count` key is written.  The last component
counts the `buffer()` drains performed by the call. -/
def Controller.state_dict (c : Controller) (request : Option String) (extra : Dict)
    (ctx : PrintContext) : Dict × Controller × PrintContext × Nat :=
  let p := Lofigui.buffer ctx
  let d0 := dset (dset extra "request" (Val.vReq request)) "results" (Val.vStr p.1)
  if c.poll then
    (dset (dset d0 "poll_count" (Val.vNat c.poll_count)) "refresh"
        (Val.vStr (refreshMeta c.refresh_time)),
     { c with poll_count := c.poll_count + 1 }, p.2, 1)
  else
    (dset d0 "refresh" (Val.vStr ""), { c with poll_count := 0 }, p.2, 1)

/-- The mutable fields of `App` (app.py constructor lines 32-47), with the
held controller embedded as an optional heap id. -/
structure AppState where
  controller : Option Nat
  startup : Bool
  startup_bounce_count : Nat
  refresh_time : Nat
  version : String
  poll : Bool
  poll_count : Nat
  action_running : Bool
  deriving DecidableEq

/-- A fresh `App(controller=...)`: the fields set by `App.__init__`. -/
def freshApp (controller : Option Nat) : AppState :=
  { controller := controller, startup := true, startup_bounce_count := 0,
    refresh_time := 1, version := "Lofigui", poll := false, poll_count := 0,
    action_running := false }

/-- The world an `App` lives in: its own fields, the heap of controller
objects (id-indexed, so Python `is` is id equality), and the shared print
context. -/
structure World where
  app : AppState
  heap : Nat → Controller
  ctx : PrintContext

/-- Point update of the controller heap. -/
def updateHeap (h : Nat → Controller) (i : Nat) (c : Controller) : Nat → Controller :=
  fun j => if j = i then c else h j

/-- `App.controller_name` (app.py lines 143-146).  The repository's
`Controller` class defines no attribute `name`, so
`hasattr(self._controller, "name")` is false for every held controller and
the fallback string is always returned. -/
def App.controller_name (_w : World) : String :=
  "Lofigui no controller"

/-- `App.state_dict` (app.py lines 85-108).  Builds the defaults dict in
source order (`request`, `version`, `results` draining the buffer once,
`controller_name`, then the poll block which post-increments or zeroes
`poll_count` before the `poll_count` key is written), then merges the
controller's `state_dict` (called with `request=None`) with `|` if a
controller is held, else merges a copy of `extra`.  The last component
counts the `buffer()` drains performed during the whole call. -/
def App.state_dict (w : World) (request : Option String) (extra : Dict) :
    Dict × World × Nat :=
  let a := w.app
  let p := Lofigui.buffer w.ctx
  let d0 := dset (dset (dset (dset dempty "request" (Val.vReq request))
      "version" (Val.vStr a.version)) "results" (Val.vStr p.1))
      "controller_name" (Val.vStr (App.controller_name w))
  let a1 := if a.poll then { a with poll_count := a.poll_count + 1 }
            else { a with poll_count := 0 }
  let d1 := if a.poll then
      dset (dset d0 "polling" (Val.vStr "Running")) "refresh"
        (Val.vStr (refreshMeta a.refresh_time))
    else
      dset (dset d0 "polling" (Val.vStr "Stopped")) "refresh" (Val.vStr "")
  let d2 := dset d1 "poll_count" (Val.vNat a1.poll_count)
  match a.controller with
  | some i =>
    let r := Controller.state_dict (w.heap i) none extra p.2
    (dunion d2 r.1,
     { w with app := a1, heap := updateHeap w.heap i r.2.1, ctx := r.2.2.1 },
     1 + r.2.2.2)
  | none =>
    (dunion d2 extra, { w with app := a1, ctx := p.2 }, 1)

/-- The literal bounce redirect `HTMLResponse` body of app.py line 118. -/
def startupRedirectHtml : String :=
  "<head><meta http-equiv=\"Refresh\" content=\"0; URL=/\"/></head>"

/-- The two responses `App.template_response` can produce: a raw
`HTMLResponse` (the bounce redirect) or a rendered `TemplateResponse`. -/
inductive Response where
  | html : String → Response
  | template : String → Dict → Response

/-- Whether a response is the raw bounce redirect rather than a rendered
template. -/
def Response.isBounce : Response → Bool
  | Response.html _ => true
  | Response.template _ _ => false

/-- `App.template_response` (app.py lines 110-121).  On the first call of a
fresh shell (`startup` true) it clears `startup` unconditionally,
increments `startup_bounce_count`, and short-circuits to the redirect when
the count is still at most 3 and the request path is not `/`; in every
other case it renders `templateName` over `state_dict`.  The last
component counts buffer drains. -/
def App.template_response (w : World) (path : String) (templateName : String)
    (extra : Dict) : Response × World × Nat :=
  if w.app.startup then
    let a1 := { w.app with
      startup := false,
      startup_bounce_count := w.app.startup_bounce_count + 1 }
    let w1 : World := { w with app := a1 }
    if a1.startup_bounce_count ≤ 3 ∧ path ≠ "/" then
      (Response.html startupRedirectHtml, w1, 0)
    else
      let r := App.state_dict w1 (some path) extra
      (Response.template templateName r.1, r.2.1, r.2.2)
  else
    let r := App.state_dict w (some path) extra
    (Response.template templateName r.1, r.2.1, r.2.2)

/-- `App.start_action` (app.py lines 123-131).  Clears `startup`, sets the
local running/poll fields and optionally the refresh time; then, when a
controller is held, executes `self.controller.start_subaction(refresh_time)`.
No class of this repository defines `start_subaction`, so for every held
`Controller` that attribute lookup raises `AttributeError`; the returned
`Bool` is the raise flag.  Mutations made before the raise persist. -/
def App.start_action (w : World) (refresh_time : Option Nat) : World × Bool :=
  let a := { w.app with startup := false, action_running := true, poll := true }
  let a := match refresh_time with
    | some r => { a with refresh_time := r }
    | none => a
  let w1 := { w with app := a }
  match a.controller with
  | some _ => (w1, true)
  | none => (w1, false)

/-- `App.is_action_running` (app.py lines 133-135): the shell's own local
flag; it does not consult the held controller. -/
def App.is_action_running (w : World) : Bool :=
  w.app.action_running

/-- `App.end_action` (app.py lines 137-141).  Clears the local flags; then,
when a controller is held, executes `self.controller.end_subaction()`,
which raises `AttributeError` for every repository `Controller`
(`end_subaction` is defined nowhere); the returned `Bool` is the raise
flag.  Mutations made before the raise persist, and the held controller's
own state is never changed. -/
def App.end_action (w : World) : World × Bool :=
  let a := { w.app with action_running := false, poll := false }
  let w1 := { w with app := a }
  match a.controller with
  | some _ => (w1, true)
  | none => (w1, false)

/-- The `App.controller` property setter (app.py lines 54-83).  Identity
(`is`) comparison is id equality; if the same reference is assigned the
setter returns immediately.  Otherwise, when an outgoing controller is
held, it runs `if self.is_action_running(): self.end_action()` inside a
`try/except Exception: pass`, so the raise flag of `end_action` is
swallowed while its state mutations are kept; finally the new reference is
adopted. -/
def App.set_controller (w : World) (new_controller : Option Nat) : World :=
  if w.app.controller = new_controller then w
  else
    let w1 :=
      match w.app.controller with
      | none => w
      | some _ =>
        if App.is_action_running w then (App.end_action w).1 else w
    { w1 with app := { w1.app with controller := new_controller } }

/-- `html.escape` with the default `quote=True`, as called by markdown.py:
entity-escape the five HTML-special characters, ampersand first. -/
def escapeHtml (s : String) : String :=
  ((((s.replace "&" "&amp;").replace "<" "&lt;").replace ">" "&gt;").replace
      "\"" "&quot;").replace "\x27" "&#x27;"

/-- Whether a row's last cell must be extended: markdown.py line 109,
`extend_last_field = header and len(header) > len(row)`. -/
def extendLastField (header row : List String) : Bool :=
  !header.isEmpty && decide (row.length < header.length)

/-- One `<td>` line of `table` (markdown.py lines 111-116): cell `i` of
`row` under `header`; the last cell of a short row gets
`colspan="len(header)-i"`. -/
def tdCell (header row : List String) (escape : Bool) (i : Nat) (field : String) :
    String :=
  let escaped := if escape then escapeHtml field else field
  if extendLastField header row ∧ i = row.length - 1 then
    "      <td colspan=\"" ++ toString (header.length - i) ++ "\">" ++ escaped
      ++ "</td>\n"
  else
    "      <td>" ++ escaped ++ "</td>\n"

/-- One `<tr>` block of `table` (markdown.py lines 110-117). -/
def renderRow (header : List String) (escape : Bool) (row : List String) : String :=
  "    <tr>\n"
    ++ String.join (row.enum.map fun q => tdCell header row escape q.1 q.2)
    ++ "    </tr>\n"

/-- The `<thead>` block of `table` (markdown.py lines 98-103), emitted only
for a non-empty header. -/
def theadHtml (header : List String) (escape : Bool) : String :=
  if header.isEmpty then ""
  else
    "  <thead><tr>\n"
      ++ String.join (header.map fun f =>
          "    <th>" ++ (if escape then escapeHtml f else f) ++ "</th>\n")
      ++ "  </tr></thead>\n"

/-- The `<tbody>` block of `table` (markdown.py lines 105-118), emitted
only for a non-empty row list. -/
def tbodyHtml (rows : List (List String)) (header : List String) (escape : Bool) :
    String :=
  if rows.isEmpty then ""
  else "  <tbody>\n" ++ String.join (rows.map (renderRow header escape))
    ++ "  </tbody>\n"

/-- The full string built by `table` (markdown.py lines 96-120) before it
is enqueued.  Cells arrive already stringified (`str(field)`). -/
def tableHtml (rows : List (List String)) (header : List String) (escape : Bool) :
    String :=
  "<table class=\"table is-bordered is-striped\">\n"
    ++ theadHtml header escape ++ tbodyHtml rows header escape ++ "</table>\n"

/-- `table(...)` (markdown.py line 121): the generated HTML is enqueued on
the context. -/
def table (rows : List (List String)) (header : List String) (escape : Bool)
    (ctx : PrintContext) : PrintContext :=
  ctx.put_nowait (tableHtml rows header escape)

/-- A world holding a fresh `App()` with no controller. -/
def freshWorld : World :=
  { app := freshApp none, heap := fun _ => defaultController, ctx := emptyCtx }

/-- A world holding a fresh `App(controller=Controller())`: the controller
object has heap id 0. -/
def ctrlWorld : World :=
  { app := freshApp (some 0), heap := fun _ => defaultController, ctx := emptyCtx }

/-- A controller-less app that is polling with `poll_count = 0` (the state
right after `start_action` on a fresh shell, before any render). -/
def pollWorld : World :=
  { app := { freshApp none with poll := true }, heap := fun _ => defaultController,
    ctx := emptyCtx }

/-- A world where the shell holds controller A (id 0) and
`A.start_action()` has been called directly on A, as in
`tests/test_app.py::test_controller_replacement_stops_running_action`;
id 1 is an unrelated controller B. -/
def runningAWorld : World :=
  { app := freshApp (some 0),
    heap := fun j => if j = 0 then Controller.start_action defaultController none
      else defaultController,
    ctx := emptyCtx }

theorem read_buffer_eq (c : PrintContext) :
    c.read.buffer = c.buffer ++ String.join c.queue := by
  unfold PrintContext.read
  split
  · next h =>
      have hq : c.queue = [] := by simpa using h
      rw [hq]
      show c.buffer = c.buffer ++ ""
      simp
  · rfl

theorem read_queue_eq (c : PrintContext) : c.read.queue = [] := by
  unfold PrintContext.read
  split
  · next h => simpa using h
  · rfl

theorem read_size_eq (c : PrintContext) : c.read.max_buffer_size = c.max_buffer_size := by
  unfold PrintContext.read
  split <;> rfl

theorem enqueueAll_queue (fs : List String) (c : PrintContext) :
    (enqueueAll c fs).queue = c.queue ++ fs := by
  induction fs generalizing c with
  | nil => simp [enqueueAll]
  | cons f fs ih =>
      show (enqueueAll (c.put_nowait f) fs).queue = c.queue ++ (f :: fs)
      rw [ih]
      simp [PrintContext.put_nowait]

theorem enqueueAll_buffer (fs : List String) (c : PrintContext) :
    (enqueueAll c fs).buffer = c.buffer := by
  induction fs generalizing c with
  | nil => rfl
  | cons f fs ih =>
      show (enqueueAll (c.put_nowait f) fs).buffer = c.buffer
      rw [ih]
      rfl

/-- Claim C8: for every sequence of fragments F1..Fn enqueued since the
last reset, `read()`/`buffer()` returns exactly the concatenation
F1 ++ ... ++ Fn in enqueue order, a second read with no intervening
enqueues returns the same string again, and in general the buffer after a
drain is the buffer before plus the concatenation of the drained
fragments. -/
theorem buffer_returns_enqueue_order_concat (ctx : PrintContext) (fs : List String)
    (h : ctx.queue = []) :
    (Lofigui.buffer (enqueueAll (Lofigui.reset ctx) fs)).1 = String.join fs
    ∧ (Lofigui.buffer (Lofigui.buffer (enqueueAll (Lofigui.reset ctx) fs)).2).1
      = (Lofigui.buffer (enqueueAll (Lofigui.reset ctx) fs)).1
    ∧ ∀ c : PrintContext, c.read.buffer = c.buffer ++ String.join c.queue := by
  have hq : (enqueueAll (Lofigui.reset ctx) fs).queue = fs := by
    rw [enqueueAll_queue]
    simp [Lofigui.reset, h]
  have hb : (enqueueAll (Lofigui.reset ctx) fs).buffer = "" := by
    rw [enqueueAll_buffer]
    rfl
  refine ⟨?_, ?_, fun c => read_buffer_eq c⟩
  · show (enqueueAll (Lofigui.reset ctx) fs).read.buffer = String.join fs
    rw [read_buffer_eq, hq, hb]
    simp
  · show (enqueueAll (Lofigui.reset ctx) fs).read.read.buffer
      = (enqueueAll (Lofigui.reset ctx) fs).read.buffer
    rw [read_buffer_eq (enqueueAll (Lofigui.reset ctx) fs).read, read_queue_eq]
    show (enqueueAll (Lofigui.reset ctx) fs).read.buffer ++ ""
      = (enqueueAll (Lofigui.reset ctx) fs).read.buffer
    simp

/-- Claim C8 witness: a concrete empty-queue context with fragments
`["a", "b"]`. -/
theorem buffer_returns_enqueue_order_concat_witness :
    emptyCtx.queue = []
    ∧ (Lofigui.buffer (enqueueAll (Lofigui.reset emptyCtx) ["a", "b"])).1
      = String.join ["a", "b"] :=
  ⟨rfl, (buffer_returns_enqueue_order_concat emptyCtx ["a", "b"] rfl).1⟩

/-- Claim C9 counterexample: with fragment "x" still pending, reset
followed by read returns "x", not the empty string the claim asserts. -/
theorem reset_then_read_counterexample :
    (Lofigui.buffer (Lofigui.reset
        { queue := ["x"], buffer := "old", max_buffer_size := none })).1 = "x"
    ∧ ("x" : String) ≠ "" := by
  constructor
  · decide
  · decide

/-- Claim C9 (amended): `reset()` sets the buffer to the empty string and
leaves the pending queue untouched; the next read returns exactly the
concatenation of the fragments that were still pending at the reset — the
empty string precisely when nothing was pending — so fragments enqueued
before the reset but not yet drained still appear. -/
theorem reset_clears_buffer_keeps_queue (ctx : PrintContext) :
    (Lofigui.reset ctx).buffer = "" ∧ (Lofigui.reset ctx).queue = ctx.queue
    ∧ (Lofigui.buffer (Lofigui.reset ctx)).1 = String.join ctx.queue := by
  refine ⟨rfl, rfl, ?_⟩
  show (Lofigui.reset ctx).read.buffer = String.join ctx.queue
  rw [read_buffer_eq]
  show "" ++ String.join ctx.queue = _
  simp

theorem state_dict_startup_eq (w : World) (req : Option String) (e : Dict) :
    (App.state_dict w req e).2.1.app.startup = w.app.startup := by
  unfold App.state_dict
  cases hm : w.app.controller <;> simp [hm] <;> split <;> rfl

/-- Claim C1 counterexample: on a fresh shell, the first non-home call
bounces but the second call to the same non-home path already renders
normally, because the first call clears `startup` unconditionally — so the
redirect is not returned for the first 3 non-home calls. -/
theorem startup_bounce_counterexample :
    Response.isBounce (App.template_response freshWorld "/display" "d.html" dempty).1
      = true
    ∧ Response.isBounce (App.template_response
        (App.template_response freshWorld "/display" "d.html" dempty).2.1
        "/display" "d.html" dempty).1 = false := by
  constructor
  · rfl
  · rfl

/-- Claim C1 (amended): on a freshly constructed shell only the very first
`template_response` call is governed by the bounce: a non-home first call
returns the redirect-to-home response, a home first call renders normally,
and in either case `startup` is cleared by that first call and never
re-arms, so every later call renders normally regardless of path. -/
theorem template_response_first_call_bounce (w : World) (path tname : String)
    (extra : Dict) (hs : w.app.startup = true) (hc : w.app.startup_bounce_count = 0) :
    (path ≠ "/" →
      (App.template_response w path tname extra).1 = Response.html startupRedirectHtml)
    ∧ (path = "/" →
      Response.isBounce (App.template_response w path tname extra).1 = false)
    ∧ (App.template_response w path tname extra).2.1.app.startup = false
    ∧ ∀ (w2 : World) (p2 t2 : String) (e2 : Dict), w2.app.startup = false →
        Response.isBounce (App.template_response w2 p2 t2 e2).1 = false := by
  refine ⟨?_, ?_, ?_, ?_⟩
  · intro hp
    simp [App.template_response, hs, hc, hp]
  · intro hp
    simp [App.template_response, hs, hc, hp, Response.isBounce]
  · by_cases hp : path = "/"
    · simp [App.template_response, hs, hc, hp, state_dict_startup_eq]
    · simp [App.template_response, hs, hc, hp]
  · intro w2 p2 t2 e2 h2
    simp [App.template_response, h2, Response.isBounce]

/-- Claim C1 witness: the fresh world at the non-home path "/x" bounces on
its first call. -/
theorem template_response_first_call_bounce_witness :
    freshWorld.app.startup = true ∧ freshWorld.app.startup_bounce_count = 0
    ∧ (App.template_response freshWorld "/x" "t.html" dempty).1
      = Response.html startupRedirectHtml :=
  ⟨rfl, rfl,
    (template_response_first_call_bounce freshWorld "/x" "t.html" dempty rfl rfl).1
      (by decide)⟩

/-- Claim C4: evaluating `App.start_action`/`App.end_action` at the failing
input — a fresh `App(controller=Controller())` (world `ctrlWorld`).  Both
calls raise (`Controller` defines neither `start_subaction` nor
`end_subaction`, so the delegation line raises `AttributeError`), and the
held controller's own running state never reflects the started action;
without a controller the calls complete and operate on the shell's local
poll fields only. -/
theorem start_action_delegation_raises :
    (App.start_action ctrlWorld (some 1)).2 = true
    ∧ ((App.start_action ctrlWorld (some 1)).1.heap 0).action_running = false
    ∧ (App.end_action ctrlWorld).2 = true
    ∧ (App.start_action freshWorld (some 1)).2 = false
    ∧ (App.start_action freshWorld (some 1)).1.app.poll = true
    ∧ (App.start_action freshWorld (some 1)).1.app.action_running = true := by
  refine ⟨rfl, rfl, rfl, rfl, rfl, rfl⟩

/-- Claim C5: evaluating the controller setter at the failing input of
`tests/test_app.py::test_controller_replacement_stops_running_action`:
controller A (id 0) has a running action, controller B (id 1) is assigned.
The teardown consults the shell's own `_action_running` flag (false), so
`end_action` is never called and A still reports running after the
replacement, although the shell does adopt B; even on the variant where
the shell's own flag is set, the `AttributeError` from
`end_subaction` is swallowed before A's state is ever touched, so A still
reports running. -/
theorem replacement_leaves_outgoing_running :
    Controller.is_action_running (runningAWorld.heap 0) = true
    ∧ Controller.is_action_running
        ((App.set_controller runningAWorld (some 1)).heap 0) = true
    ∧ (App.set_controller runningAWorld (some 1)).app.controller = some 1
    ∧ Controller.is_action_running ((App.set_controller
        { runningAWorld with
          app := { runningAWorld.app with action_running := true } }
        (some 1)).heap 0) = true := by
  refine ⟨rfl, rfl, rfl, rfl⟩

/-- Claim C7: assigning the very same controller reference that is already
held is a no-op — the whole world (shell fields, every controller's state,
the buffer) is unchanged. -/
theorem set_controller_idempotent (w : World) (c : Option Nat)
    (h : w.app.controller = c) : App.set_controller w c = w := by
  unfold App.set_controller
  rw [if_pos h]

/-- Claim C7 witness: reassigning controller A (id 0) to the shell that
already holds it, while A's action is running, changes nothing. -/
theorem set_controller_idempotent_witness :
    runningAWorld.app.controller = some 0
    ∧ App.set_controller runningAWorld (some 0) = runningAWorld :=
  ⟨rfl, set_controller_idempotent runningAWorld (some 0) rfl⟩

/-- Claim C2 counterexample: with a controller present, a caller-supplied
`extra["refresh"] = "X"` does not survive — `Controller.state_dict`
overwrites the `refresh` key after merging `extra`, so the returned value
is the empty refresh directive, not "X". -/
theorem extra_override_counterexample :
    (App.state_dict ctrlWorld (some "/")
        (dset dempty "refresh" (Val.vStr "X"))).1 "refresh" = some (Val.vStr "")
    ∧ some (Val.vStr "") ≠ some (Val.vStr "X") := by
  constructor
  · rfl
  · decide

/-- Claim C2 (amended): with a controller present, for any key of `extra`
other than the reserved keys `request`, `results`, `refresh` — and
`poll_count` while the controller is polling — the returned dictionary
maps that key to `extra`'s value; the reserved keys are re-set by the
controller after `extra` is merged. -/
theorem state_dict_extra_precedence (w : World) (request : Option String)
    (extra : Dict) (i : Nat) (k : String) (v : Val)
    (hc : w.app.controller = some i) (hk : extra k = some v)
    (h1 : k ≠ "request") (h2 : k ≠ "results") (h3 : k ≠ "refresh")
    (h4 : (w.heap i).poll = true → k ≠ "poll_count") :
    (App.state_dict w request extra).1 k = some v := by
  unfold App.state_dict Controller.state_dict
  by_cases hp : (w.heap i).poll = true
  · have h4p := h4 hp
    simp [hc, hp, dunion, dset, h1, h2, h3, h4p, hk]
  · simp [hc, hp, dunion, dset, h1, h2, h3, hk]

/-- Claim C2 witness: the non-reserved key "foo" supplied in `extra`
survives the merge unchanged. -/
theorem state_dict_extra_precedence_witness :
    ctrlWorld.app.controller = some 0
    ∧ (dset dempty "foo" (Val.vNat 7)) "foo" = some (Val.vNat 7)
    ∧ (App.state_dict ctrlWorld (some "/") (dset dempty "foo" (Val.vNat 7))).1 "foo"
      = some (Val.vNat 7) :=
  ⟨rfl, rfl,
    state_dict_extra_precedence ctrlWorld (some "/") (dset dempty "foo" (Val.vNat 7))
      0 "foo" (Val.vNat 7) rfl rfl (by decide) (by decide) (by decide) (by decide)⟩

/-- Claim C3 counterexample: on a controller-less shell that just became
polling (`poll = true`, `poll_count = 0`), the first render reports
`poll_count = 1`, not 0 — `App.state_dict` increments the counter before
writing the key. -/
theorem poll_count_first_render_counterexample :
    (App.state_dict pollWorld (some "/") dempty).1 "poll_count" = some (Val.vNat 1)
    ∧ some (Val.vNat 1) ≠ some (Val.vNat 0) := by
  constructor
  · rfl
  · decide

/-- Claim C3 (amended): while polling, `Controller.state_dict` reports the
current `poll_count` and then increments it (first render reports 0), but
`App.state_dict` increments first and then reports (first render reports
the old count plus one); when poll is false both reset the counter to 0
and set the refresh directive to the empty string, the App writing
`poll_count = 0` and the Controller omitting the key. -/
theorem poll_count_render_behavior (w : World) (req req2 : Option String)
    (extra : Dict) (c : Controller) (ctx : PrintContext)
    (hnc : w.app.controller = none)
    (he1 : extra "poll_count" = none) (he2 : extra "refresh" = none) :
    (w.app.poll = true →
      (App.state_dict w req extra).1 "poll_count"
        = some (Val.vNat (w.app.poll_count + 1))
      ∧ (App.state_dict w req extra).2.1.app.poll_count = w.app.poll_count + 1)
    ∧ (w.app.poll = false →
      (App.state_dict w req extra).1 "poll_count" = some (Val.vNat 0)
      ∧ (App.state_dict w req extra).1 "refresh" = some (Val.vStr "")
      ∧ (App.state_dict w req extra).2.1.app.poll_count = 0)
    ∧ (c.poll = true →
      (Controller.state_dict c req2 extra ctx).1 "poll_count"
        = some (Val.vNat c.poll_count)
      ∧ (Controller.state_dict c req2 extra ctx).2.1.poll_count = c.poll_count + 1)
    ∧ (c.poll = false →
      (Controller.state_dict c req2 extra ctx).1 "poll_count" = none
      ∧ (Controller.state_dict c req2 extra ctx).1 "refresh" = some (Val.vStr "")
      ∧ (Controller.state_dict c req2 extra ctx).2.1.poll_count = 0) := by
  have hA : ("refresh" : String) ≠ "poll_count" := by decide
  have hB : ("poll_count" : String) ≠ "refresh" := by decide
  have hC : ("poll_count" : String) ≠ "results" := by decide
  have hD : ("poll_count" : String) ≠ "request" := by decide
  refine ⟨?_, ?_, ?_, ?_⟩ <;> intro hp
  · exact ⟨by simp [App.state_dict, hnc, hp, dunion, dset, he1],
      by simp [App.state_dict, hnc, hp]⟩
  · exact ⟨by simp [App.state_dict, hnc, hp, dunion, dset, he1, hB],
      by simp [App.state_dict, hnc, hp, dunion, dset, he2],
      by simp [App.state_dict, hnc, hp]⟩
  · exact ⟨by simp [Controller.state_dict, hp, dset, hB],
      by simp [Controller.state_dict, hp]⟩
  · exact ⟨by simp [Controller.state_dict, hp, dset, hB, hC, hD, he1],
      by simp [Controller.state_dict, hp, dset],
      by simp [Controller.state_dict, hp]⟩

/-- Claim C3 witness: the polling controller-less shell with count 0
reports 1 on its first render, and a fresh polling controller reports 0. -/
theorem poll_count_render_behavior_witness :
    pollWorld.app.controller = none
    ∧ dempty "poll_count" = none ∧ dempty "refresh" = none
    ∧ pollWorld.app.poll = true
    ∧ (App.state_dict pollWorld (some "/") dempty).1 "poll_count"
      = some (Val.vNat (pollWorld.app.poll_count + 1))
    ∧ { defaultController with poll := true }.poll = true
    ∧ (Controller.state_dict { defaultController with poll := true } none dempty
        emptyCtx).1 "poll_count" = some (Val.vNat 0) :=
  ⟨rfl, rfl, rfl, rfl,
    ((poll_count_render_behavior pollWorld (some "/") none dempty
        { defaultController with poll := true } emptyCtx rfl rfl rfl).1 rfl).1,
    rfl,
    ((poll_count_render_behavior pollWorld (some "/") none dempty
        { defaultController with poll := true } emptyCtx rfl rfl rfl).2.2.1 rfl).1⟩

/-- Claim C6 counterexample: with a controller present, one call to
`App.state_dict` drains the shared buffer twice — once in the App's own
defaults block and once inside `Controller.state_dict` — not exactly
once. -/
theorem drain_count_counterexample :
    (App.state_dict ctrlWorld (some "/") dempty).2.2 = 2 ∧ (2 : Nat) ≠ 1 := by
  constructor
  · rfl
  · decide

/-- Claim C6 (amended): every call of `App.state_dict` drains the shared
buffer exactly once when no controller is held, and exactly twice when a
controller is held (the App's own `buffer()` plus the controller's). -/
theorem state_dict_drain_count (w : World) (req : Option String) (extra : Dict) :
    (w.app.controller = none → (App.state_dict w req extra).2.2 = 1)
    ∧ ∀ i, w.app.controller = some i → (App.state_dict w req extra).2.2 = 2 := by
  constructor
  · intro h
    simp [App.state_dict, h]
  · intro i h
    by_cases hp : (w.heap i).poll = true <;>
      simp [App.state_dict, Controller.state_dict, h, hp]

/-- Claim C6 witness: one drain without a controller, two with. -/
theorem state_dict_drain_count_witness :
    freshWorld.app.controller = none
    ∧ (App.state_dict freshWorld (some "/") dempty).2.2 = 1
    ∧ ctrlWorld.app.controller = some 0
    ∧ (App.state_dict ctrlWorld (some "/") dempty).2.2 = 2 :=
  ⟨rfl, (state_dict_drain_count freshWorld (some "/") dempty).1 rfl, rfl,
    (state_dict_drain_count ctrlWorld (some "/") dempty).2 0 rfl⟩

/-- Claim C10: under a non-empty header, the last cell of a data row that
is shorter than the header renders with
`colspan = header_length - row_length + 1`; every cell before the last,
and every cell of a row whose length equals the header's, renders as a
plain `<td>`; and `tableHtml` assembles exactly these rendered rows inside
its `<tbody>`. -/
theorem table_short_row_colspan (header row : List String) (escape : Bool)
    (i : Nat) (field : String) (hne : header ≠ []) :
    (0 < row.length → row.length < header.length → i = row.length - 1 →
      tdCell header row escape i field
        = "      <td colspan=\"" ++ toString (header.length - row.length + 1)
          ++ "\">" ++ (if escape then escapeHtml field else field) ++ "</td>\n")
    ∧ (i < row.length - 1 →
      tdCell header row escape i field
        = "      <td>" ++ (if escape then escapeHtml field else field) ++ "</td>\n")
    ∧ (row.length = header.length →
      tdCell header row escape i field
        = "      <td>" ++ (if escape then escapeHtml field else field) ++ "</td>\n")
    ∧ tableHtml [row] header escape
      = "<table class=\"table is-bordered is-striped\">\n" ++ theadHtml header escape
        ++ ("  <tbody>\n" ++ renderRow header escape row ++ "  </tbody>\n")
        ++ "</table>\n" := by
  refine ⟨?_, ?_, ?_, ?_⟩
  · intro h0 hlt hi
    subst hi
    have hext : extendLastField header row = true := by
      simp [extendLastField, hne, hlt]
    have harith : header.length - (row.length - 1) = header.length - row.length + 1 := by
      omega
    simp [tdCell, hext, harith]
  · intro hlt2
    have hne2 : i ≠ row.length - 1 := by omega
    simp [tdCell, hne2]
  · intro heq
    have hext : extendLastField header row = false := by
      simp [extendLastField, heq]
    simp [tdCell, hext]
  · have hj : String.join [renderRow header escape row] = renderRow header escape row := by
      rw [show String.join [renderRow header escape row]
        = "" ++ renderRow header escape row from rfl]
      simp
    simp [tableHtml, tbodyHtml, hj]

/-- Claim C10 witness: the spec's own example — under header
`["Name", "Age"]` the sole cell of the short row `["Short"]` renders with
`colspan="2"`. -/
theorem table_short_row_colspan_witness :
    (["Name", "Age"] : List String) ≠ []
    ∧ 0 < (["Short"] : List String).length
    ∧ (["Short"] : List String).length < (["Name", "Age"] : List String).length
    ∧ tdCell ["Name", "Age"] ["Short"] true 0 "Short"
      = "      <td colspan=\"" ++ toString ((["Name", "Age"] : List String).length
          - (["Short"] : List String).length + 1) ++ "\">"
        ++ (if true then escapeHtml "Short" else "Short") ++ "</td>\n" :=
  ⟨by decide, by decide, by decide,
    (table_short_row_colspan ["Name", "Age"] ["Short"] true 0 "Short" (by decide)).1
      (by decide) (by decide) rfl⟩

end Lofigui
